import Mathlib

/-!
Shallow embedding of the banking-dashboard server
(`src/server/src/index.ts` and the validation middleware
`src/server/src/middleware/transactionMiddleware.ts`).

Monetary values (SQLite `REAL` columns `balance` and `amount`) are modelled
as `Int`; timestamps as `Nat`.  The in-memory SQLite store is a `DB` record
holding the `accounts` and `transactions` tables together with the
AUTOINCREMENT counter and the value of `CURRENT_TIMESTAMP`.  Each Express
handler becomes a function from the store (plus request data) to a response,
returning the updated store where the handler writes.  Store-level write
failures are injected through explicit `Bool` flags, so that the
insert-then-update failure path of the POST handler is expressible.
-/

/-- A row of the `accounts` table (schema in `initializeDatabase`). -/
structure Account where
  id : String
  accountNumber : String
  accountType : String
  balance : Int
  accountHolder : String
  createdAt : String
  deriving Repr, DecidableEq

/-- A row of the `transactions` table (schema in `initializeDatabase`). -/
structure Txn where
  id : Nat
  type : String
  amount : Int
  description : String
  accountId : String
  date : Nat
  deriving Repr, DecidableEq

/-- The in-memory SQLite database: both tables, the AUTOINCREMENT counter
for `transactions.id`, and the current value of `CURRENT_TIMESTAMP`. -/
structure DB where
  accounts : List Account
  transactions : List Txn
  nextTxnId : Nat
  now : Nat
  deriving Repr, DecidableEq

/-- `SELECT * FROM accounts WHERE id = ?` (point lookup, first match). -/
def findAccount (db : DB) (id : String) : Option Account :=
  db.accounts.find? (fun a => a.id = id)

/-- `SELECT balance FROM accounts WHERE id = ?`. -/
def balanceOf (db : DB) (id : String) : Option Int :=
  (findAccount db id).map (fun a => a.balance)

/-- `UPDATE accounts SET balance = ? WHERE id = ?`. -/
def updateBalance (l : List Account) (id : String) (v : Int) : List Account :=
  l.map (fun a => if a.id = id then { a with balance := v } else a)

/-- The `CHECK(type IN ("DEPOSIT", "WITHDRAWAL", "TRANSFER"))` column
constraint of the `transactions` table. -/
def allowedTypes : List String := ["DEPOSIT", "WITHDRAWAL", "TRANSFER"]

/-! ## Validation middleware (`validateCreateTransaction`)

JavaScript truthiness on the destructured body fields: a missing field is
`undefined`; `!x` holds for `undefined`, `""`, and `0`; and the comparison
`undefined <= 0` is `NaN <= 0`, which is false. -/

/-- JS `!s` for an optional string field of the JSON body. -/
def jsFalsyStr (s : Option String) : Bool :=
  s = none || s = some ""

/-- JS `!n` for an optional numeric field of the JSON body. -/
def jsFalsyNum (n : Option Int) : Bool :=
  n = none || n = some 0

/-- JS `n <= 0` for an optional numeric field: `undefined <= 0` is
`NaN <= 0`, i.e. false. -/
def jsLeZero (n : Option Int) : Bool :=
  match n with
  | none => false
  | some v => v ≤ 0

/-- What the middleware did to the request: whether it sent the 400
response, and whether it invoked `next()`. -/
structure MwResult where
  sent400 : Bool
  calledNext : Bool
  deriving Repr, DecidableEq

/-- `validateCreateTransaction` from the middleware file: sends 400 when
`!type && !amount && amount <= 0 && !description`, and then calls `next()`
unconditionally. -/
def validateCreateTransaction (type : Option String) (amount : Option Int)
    (description : Option String) : MwResult :=
  let reject := jsFalsyStr type && jsFalsyNum amount && jsLeZero amount
    && jsFalsyStr description
  { sent400 := reject, calledNext := true }

/-! ## POST /api/accounts/:id/transactions -/

/-- The request body and route parameter of the POST handler, with the three
body fields present (the destructuring `const \x7b type, amount, description \x7d
= req.body`). -/
structure PostReq where
  accountId : String
  type : String
  amount : Int
  description : String
  deriving Repr, DecidableEq

/-- The possible responses of the POST handler. -/
inductive PostResp where
  /-- 201: transaction created and balance updated. -/
  | created (transactionType : String) (amount : Int) (newBalance : Int)
  /-- 404: account not found. -/
  | notFound
  /-- 400: insufficient funds. -/
  | insufficientFunds
  /-- 500: failed to create transaction. -/
  | insertFailed
  /-- 500: transaction created but failed to update balance. -/
  | updateFailed
  deriving Repr, DecidableEq

/-- The HTTP status code of each POST response. -/
def PostResp.status : PostResp → Nat
  | .created _ _ _ => 201
  | .notFound => 404
  | .insufficientFunds => 400
  | .insertFailed => 500
  | .updateFailed => 500

/-- Does the response report a successfully committed transaction (201)? -/
def PostResp.isCreated : PostResp → Bool
  | .created _ _ _ => true
  | _ => false

/-- The POST /api/accounts/:id/transactions handler.  `insertOk` and
`updateOk` inject store-level failures of the two sequential writes; the
insert additionally fails when the `type` CHECK constraint of the
`transactions` schema is violated.  The inserted row takes the
AUTOINCREMENT id and `CURRENT_TIMESTAMP`. -/
def createTransaction (db : DB) (r : PostReq) (insertOk updateOk : Bool) :
    PostResp × DB :=
  match findAccount db r.accountId with
  | none => (.notFound, db)
  | some account =>
    let newBalance :=
      if r.type = "DEPOSIT" then account.balance + r.amount
      else account.balance - r.amount
    if newBalance < 0 then (.insufficientFunds, db)
    else if insertOk && allowedTypes.contains r.type then
      let row : Txn :=
        { id := db.nextTxnId, type := r.type, amount := r.amount,
          description := r.description, accountId := r.accountId,
          date := db.now }
      let db1 : DB :=
        { db with transactions := db.transactions ++ [row],
                  nextTxnId := db.nextTxnId + 1 }
      if updateOk then
        (.created r.type r.amount newBalance,
          { db1 with accounts := updateBalance db1.accounts r.accountId newBalance })
      else (.updateFailed, db1)
    else (.insertFailed, db)

/-! ## GET /api/accounts/:id -/

/-- The possible responses of GET /api/accounts/:id. -/
inductive GetAcctResp where
  /-- 200: the account row. -/
  | ok (a : Account)
  /-- 404: account not found. -/
  | notFound
  deriving Repr, DecidableEq

/-- The GET /api/accounts/:id handler; a pure read, so it also returns the
(unchanged) store to make its absence of writes part of the model. -/
def getAccount (db : DB) (id : String) : GetAcctResp × DB :=
  match findAccount db id with
  | some a => (.ok a, db)
  | none => (.notFound, db)

/-! ## GET /api/accounts/:id/transactions -/

/-- JS `parseInt(q) || d` on a query parameter: `none` stands for a missing
or non-numeric parameter (`parseInt` gives `NaN`), and both `NaN` and `0`
are falsy, so they fall back to the default. -/
def jsOr (q : Option Int) (d : Int) : Int :=
  match q with
  | none => d
  | some n => if n = 0 then d else n

/-- `ORDER BY date DESC, id DESC`: row `a` sorts no later than row `b`. -/
def txnBefore (a b : Txn) : Bool :=
  b.date < a.date || (b.date = a.date && b.id ≤ a.id)

/-- Insertion step of the sort realising `ORDER BY date DESC, id DESC`. -/
def insertTxn (t : Txn) : List Txn → List Txn
  | [] => [t]
  | x :: xs => if txnBefore t x then t :: x :: xs else x :: insertTxn t xs

/-- Sort rows by `date DESC, id DESC` (insertion sort). -/
def sortTxns : List Txn → List Txn
  | [] => []
  | x :: xs => insertTxn x (sortTxns xs)

/-- The pagination envelope of the transactions listing. -/
structure Pagination where
  currentPage : Int
  limit : Int
  totalTransactions : Nat
  totalPages : Nat
  hasNextPage : Bool
  hasPreviousPage : Bool
  deriving Repr, DecidableEq

/-- The possible responses of GET /api/accounts/:id/transactions. -/
inductive GetTxResp where
  /-- 200: the page of rows with the pagination envelope. -/
  | ok (transactions : List Txn) (pagination : Pagination)
  /-- 400: invalid pagination parameters. -/
  | badPagination
  deriving Repr, DecidableEq

/-- The HTTP status code of each GET-transactions response. -/
def GetTxResp.status : GetTxResp → Nat
  | .ok _ _ => 200
  | .badPagination => 400

/-- The GET /api/accounts/:id/transactions handler.  `qpage` and `qlimit`
are the parsed `page` and `limit` query parameters.  As in the source, BOTH
`page` and `limit` are computed from `req.query.page` (`qlimit` is never
read), `Math.ceil(total / limit)` becomes `(total + limit - 1) / limit`,
and the page of rows is `ORDER BY date DESC, id DESC LIMIT ? OFFSET ?`. -/
def getTransactions (db : DB) (id : String) (qpage qlimit : Option Int) :
    GetTxResp :=
  let page := jsOr qpage 1
  let limit := jsOr qpage 10
  let offset := (page - 1) * limit
  if page < 1 || limit < 1 || limit > 100 then .badPagination
  else
    let totalTransactions := (db.transactions.filter (fun t => t.accountId = id)).length
    let totalPages := (totalTransactions + limit.toNat - 1) / limit.toNat
    let rows :=
      ((sortTxns (db.transactions.filter (fun t => t.accountId = id))).drop
        offset.toNat).take limit.toNat
    .ok rows
      { currentPage := page, limit := limit,
        totalTransactions := totalTransactions, totalPages := totalPages,
        hasNextPage := decide (page < (totalPages : Int)),
        hasPreviousPage := decide (1 < page) }

/-! ## Sequences of transaction requests -/

/-- Run a sequence of POST requests, each with its pair of write-failure
flags, threading the store; also collect each request with its response. -/
def runTxns (db : DB) : List (PostReq × Bool × Bool) → DB × List (PostReq × PostResp)
  | [] => (db, [])
  | (r, iOk, uOk) :: rest =>
    let step := createTransaction db r iOk uOk
    let tail := runTxns step.2 rest
    (tail.1, (r, step.1) :: tail.2)

/-- Sum of the amounts of the committed (201) DEPOSIT transactions of
account `A` in a request/response trace. -/
def depositSum (A : String) : List (PostReq × PostResp) → Int
  | [] => 0
  | (r, resp) :: rest =>
    (if resp.isCreated && r.accountId = A && r.type = "DEPOSIT"
      then r.amount else 0) + depositSum A rest

/-- Sum of the amounts of the committed (201) WITHDRAWAL and TRANSFER
transactions of account `A` in a request/response trace. -/
def debitSum (A : String) : List (PostReq × PostResp) → Int
  | [] => 0
  | (r, resp) :: rest =>
    (if resp.isCreated && r.accountId = A
        && (r.type = "WITHDRAWAL" || r.type = "TRANSFER")
      then r.amount else 0) + debitSum A rest

/-! ## Seed data (`insertSampleData`) -/

/-- The two sample accounts inserted at startup (`createdAt` is the startup
timestamp rendered as a string; its value is irrelevant to every claim). -/
def seedDb : DB :=
  { accounts :=
      [ { id := "1", accountNumber := "1001", accountType := "CHECKING",
          balance := 5000, accountHolder := "John Doe", createdAt := "t0" },
        { id := "2", accountNumber := "1002", accountType := "SAVINGS",
          balance := 10000, accountHolder := "Jane Smith", createdAt := "t0" } ],
    transactions := [], nextTxnId := 1, now := 0 }

/-- A store whose account "1" has exactly 15 transactions, with pairwise
distinct dates, so that under `date DESC, id DESC` the row with id `16 - k`
has display rank `k`. -/
def db15 : DB :=
  { seedDb with
    transactions := (List.range 15).map (fun k =>
      { id := k + 1, type := "DEPOSIT", amount := 10, description := "d",
        accountId := "1", date := k + 1 }),
    nextTxnId := 16 }

/-! ## Claims -/

/-- C1: a transaction request on an existing account whose computed new
balance is negative is answered with the insufficient-funds error (HTTP 400)
and leaves the store — transaction rows and account balances — exactly as it
was. -/
theorem insufficientFunds_no_mutation (db : DB) (r : PostReq)
    (iOk uOk : Bool) (account : Account)
    (hacct : findAccount db r.accountId = some account)
    (hneg : (if r.type = "DEPOSIT" then account.balance + r.amount
             else account.balance - r.amount) < 0) :
    createTransaction db r iOk uOk = (.insufficientFunds, db) ∧
    PostResp.status .insufficientFunds = 400 := by
  refine ⟨?_, rfl⟩
  unfold createTransaction
  rw [hacct]
  simp only [if_pos hneg]

/-- C1 witness: the spec scenario — withdrawing 6000 from account "1" of
the seed store (balance 5000) is rejected with HTTP 400 and the store is
unchanged. -/
theorem insufficientFunds_no_mutation_witness :
    createTransaction seedDb ⟨"1", "WITHDRAWAL", 6000, "w"⟩ true true =
      (.insufficientFunds, seedDb) ∧
    PostResp.status .insufficientFunds = 400 :=
  insufficientFunds_no_mutation seedDb ⟨"1", "WITHDRAWAL", 6000, "w"⟩ true true
    { id := "1", accountNumber := "1001", accountType := "CHECKING",
      balance := 5000, accountHolder := "John Doe", createdAt := "t0" }
    (by decide) (by decide)

/-- C6: a successful creation (account found, non-negative new balance,
both writes succeed) returns HTTP 201 whose body carries the transaction
type, the amount, and the new balance, where the new balance adds the
amount for DEPOSIT and subtracts it for WITHDRAWAL and TRANSFER. -/
theorem created_response_fields (db : DB) (r : PostReq) (account : Account)
    (hacct : findAccount db r.accountId = some account)
    (hty : r.type = "DEPOSIT" ∨ r.type = "WITHDRAWAL" ∨ r.type = "TRANSFER")
    (hpos : 0 ≤ (if r.type = "DEPOSIT" then account.balance + r.amount
                 else account.balance - r.amount)) :
    (createTransaction db r true true).1 =
      .created r.type r.amount
        (if r.type = "DEPOSIT" then account.balance + r.amount
         else account.balance - r.amount) ∧
    (createTransaction db r true true).1.status = 201 := by
  have hmem : allowedTypes.contains r.type = true := by
    rcases hty with h | h | h <;> simp [allowedTypes, h]
  have hne : ¬ (if r.type = "DEPOSIT" then account.balance + r.amount
      else account.balance - r.amount) < 0 := not_lt.mpr hpos
  have h1 : (createTransaction db r true true).1 =
      .created r.type r.amount
        (if r.type = "DEPOSIT" then account.balance + r.amount
         else account.balance - r.amount) := by
    unfold createTransaction
    rw [hacct]
    simp only [hne, if_false, hmem, Bool.and_self, if_true]
  exact ⟨h1, by rw [h1]; rfl⟩

/-- C6 witness: the spec scenario — depositing 500 into account "1" of the
seed store (balance 5000) yields 201 with body
`DEPOSIT`, `500`, `newBalance = 5500`. -/
theorem created_response_fields_witness :
    (createTransaction seedDb ⟨"1", "DEPOSIT", 500, "payroll"⟩ true true).1 =
      .created "DEPOSIT" 500 5500 ∧
    (createTransaction seedDb ⟨"1", "DEPOSIT", 500, "payroll"⟩ true true).1.status = 201 := by
  have h := created_response_fields seedDb ⟨"1", "DEPOSIT", 500, "payroll"⟩
    { id := "1", accountNumber := "1001", accountType := "CHECKING",
      balance := 5000, accountHolder := "John Doe", createdAt := "t0" }
    (by decide) (Or.inl rfl) (by decide)
  exact h

/-- C9: when the insert succeeds but the balance update fails, the request
ends with HTTP 500, the new Transaction row is recorded in the store, and
the account table (hence the balance) is left at its old value. -/
theorem update_failure_orphan_row (db : DB) (r : PostReq) (account : Account)
    (hacct : findAccount db r.accountId = some account)
    (hty : r.type = "DEPOSIT" ∨ r.type = "WITHDRAWAL" ∨ r.type = "TRANSFER")
    (hpos : 0 ≤ (if r.type = "DEPOSIT" then account.balance + r.amount
                 else account.balance - r.amount)) :
    (createTransaction db r true false).1 = .updateFailed ∧
    (createTransaction db r true false).1.status = 500 ∧
    (createTransaction db r true false).2.transactions =
      db.transactions ++
        [{ id := db.nextTxnId, type := r.type, amount := r.amount,
           description := r.description, accountId := r.accountId,
           date := db.now }] ∧
    (createTransaction db r true false).2.accounts = db.accounts := by
  have hmem : allowedTypes.contains r.type = true := by
    rcases hty with h | h | h <;> simp [allowedTypes, h]
  have hne : ¬ (if r.type = "DEPOSIT" then account.balance + r.amount
      else account.balance - r.amount) < 0 := not_lt.mpr hpos
  have hres : createTransaction db r true false =
      (.updateFailed,
        { db with
            transactions := db.transactions ++
              [{ id := db.nextTxnId, type := r.type, amount := r.amount,
                 description := r.description, accountId := r.accountId,
                 date := db.now }],
            nextTxnId := db.nextTxnId + 1 }) := by
    unfold createTransaction
    rw [hacct]
    simp only [hne, if_false, hmem, Bool.and_self, if_true]
    rfl
  rw [hres]
  exact ⟨rfl, rfl, rfl, rfl⟩

/-- C9 witness: on the seed store, a deposit of 500 to account "1" whose
balance update fails returns 500, leaves the row recorded, and leaves the
accounts table unchanged. -/
theorem update_failure_orphan_row_witness :
    (createTransaction seedDb ⟨"1", "DEPOSIT", 500, "p"⟩ true false).1 = .updateFailed ∧
    (createTransaction seedDb ⟨"1", "DEPOSIT", 500, "p"⟩ true false).1.status = 500 ∧
    (createTransaction seedDb ⟨"1", "DEPOSIT", 500, "p"⟩ true false).2.transactions =
      seedDb.transactions ++
        [{ id := seedDb.nextTxnId, type := "DEPOSIT", amount := 500,
           description := "p", accountId := "1", date := seedDb.now }] ∧
    (createTransaction seedDb ⟨"1", "DEPOSIT", 500, "p"⟩ true false).2.accounts =
      seedDb.accounts :=
  update_failure_orphan_row seedDb ⟨"1", "DEPOSIT", 500, "p"⟩
    { id := "1", accountNumber := "1001", accountType := "CHECKING",
      balance := 5000, accountHolder := "John Doe", createdAt := "t0" }
    (by decide) (Or.inl rfl) (by decide)

/-- C8: GET /api/accounts/:id performs no write, so calling it twice with
no intervening operation returns identical data. -/
theorem getAccount_idempotent (db : DB) (id : String) :
    (getAccount db id).2 = db ∧
    (getAccount (getAccount db id).2 id).1 = (getAccount db id).1 := by
  have hst : (getAccount db id).2 = db := by
    unfold getAccount
    cases findAccount db id <;> rfl
  exact ⟨hst, by rw [hst]⟩

/-- C10: the middleware calls `next()` on every request, including the ones
it answered with 400, and its reject condition is false on a body with no
fields at all (`undefined <= 0` being false), whereas it does fire on the
all-falsy body with `amount = 0`. -/
theorem validate_always_calls_next :
    (∀ t a d, (validateCreateTransaction t a d).calledNext = true) ∧
    (validateCreateTransaction none none none).sent400 = false ∧
    (validateCreateTransaction none (some 0) none).sent400 = true :=
  ⟨fun _ _ _ => rfl, rfl, rfl⟩

/-- C5 fails on the code: the body `type = "DEPOSIT"`, `amount = -5`,
`description = "x"` violates the `amount > 0` constraint, yet the
middleware does not send 400 (its condition needs all fields falsy at
once), and the handler then reads the store and even commits the negative
deposit, mutating the balance to 4995. -/
theorem invalid_amount_passes_middleware :
    (validateCreateTransaction (some "DEPOSIT") (some (-5)) (some "x")).sent400 = false ∧
    (validateCreateTransaction (some "DEPOSIT") (some (-5)) (some "x")).calledNext = true ∧
    (createTransaction seedDb ⟨"1", "DEPOSIT", -5, "x"⟩ true true).1 =
      .created "DEPOSIT" (-5) 4995 ∧
    balanceOf (createTransaction seedDb ⟨"1", "DEPOSIT", -5, "x"⟩ true true).2 "1" =
      some 4995 := by
  refine ⟨rfl, rfl, by decide, by decide⟩

/-- C3 fails on the code: with 15 transactions,
`?page=2&limit=10` is served with `limit` parsed from the PAGE parameter
(`parseInt(req.query.page) || 10`), so the handler uses `limit = 2`,
`offset = 2`, and returns the 2 rows of display ranks 3 and 4 (ids 13 and
12), with `totalPages = 8` and `hasNextPage = true` — not the 5 rows of
ranks 11–15 with `hasNextPage = false` that the claim requires. -/
theorem page2_limit10_uses_page_as_limit :
    getTransactions db15 "1" (some 2) (some 10) =
      .ok
        [{ id := 13, type := "DEPOSIT", amount := 10, description := "d",
           accountId := "1", date := 13 },
         { id := 12, type := "DEPOSIT", amount := 10, description := "d",
           accountId := "1", date := 12 }]
        { currentPage := 2, limit := 2, totalTransactions := 15,
          totalPages := 8, hasNextPage := true, hasPreviousPage := true } := by
  decide

/-- C4 fails on the code: the `limit` query parameter is never read
(`limit` is parsed from `req.query.page`), so `?page=1&limit=500` — limit
far outside [1,100] — is answered 200 with a transaction list, and
`?page=0&limit=10` — page < 1 — falls back to page 1 and is also answered
200; neither request gets a ValidationError. -/
theorem out_of_range_limit_not_rejected :
    (getTransactions seedDb "1" (some 1) (some 500)).status = 200 ∧
    getTransactions seedDb "1" (some 1) (some 500) =
      .ok [] { currentPage := 1, limit := 1, totalTransactions := 0,
               totalPages := 0, hasNextPage := false, hasPreviousPage := false } ∧
    (getTransactions seedDb "1" (some 0) (some 10)).status = 200 := by
  refine ⟨by decide, by decide, by decide⟩

/-- C7: every 200 response of the transactions listing carries a pagination
envelope with `limit ≥ 1`,
`totalPages = ⌈totalTransactions / limit⌉` (ceiling division),
`hasNextPage ↔ currentPage < totalPages`,
`hasPreviousPage ↔ currentPage > 1`, and `totalTransactions` the number of
the account's transaction rows. -/
theorem pagination_envelope (db : DB) (id : String) (qp ql : Option Int)
    (txns : List Txn) (pag : Pagination)
    (h : getTransactions db id qp ql = .ok txns pag) :
    1 ≤ pag.limit ∧
    pag.totalPages = pag.totalTransactions ⌈/⌉ pag.limit.toNat ∧
    (pag.hasNextPage = true ↔ pag.currentPage < (pag.totalPages : Int)) ∧
    (pag.hasPreviousPage = true ↔ 1 < pag.currentPage) ∧
    pag.totalTransactions =
      (db.transactions.filter (fun t => t.accountId = id)).length := by
  unfold getTransactions at h
  simp only [Bool.or_eq_true, decide_eq_true_eq] at h
  split at h
  · exact absurd h (by simp)
  · next hcond =>
    simp only [not_or, not_lt] at hcond
    obtain ⟨⟨hpage, hlim⟩, hlimhi⟩ := hcond
    simp only [GetTxResp.ok.injEq] at h
    obtain ⟨-, hpag⟩ := h
    subst hpag
    refine ⟨hlim, rfl, by simp, by simp, rfl⟩

/-- `UPDATE ... WHERE id = B` does not change the lookup of a different
account id `A`. -/
theorem find_updateBalance_ne (l : List Account) (B A : String) (v : Int)
    (h : ¬ B = A) :
    (updateBalance l B v).find? (fun a => a.id = A) =
      l.find? (fun a => a.id = A) := by
  induction l with
  | nil => rfl
  | cons a l ih =>
    simp only [updateBalance, List.map_cons]
    by_cases hid : a.id = B
    · have hA : ¬ a.id = A := fun hc => h (hid.symm.trans hc)
      rw [if_pos hid, List.find?_cons_of_neg _ (by simpa using hA),
        List.find?_cons_of_neg _ (by simpa using hA)]
      exact ih
    · rw [if_neg hid]
      by_cases hA : a.id = A
      · rw [List.find?_cons_of_pos _ (by simpa using hA),
          List.find?_cons_of_pos _ (by simpa using hA)]
      · rw [List.find?_cons_of_neg _ (by simpa using hA),
          List.find?_cons_of_neg _ (by simpa using hA)]
        exact ih

/-- After `UPDATE ... SET balance = v WHERE id = A`, the lookup of `A`
reads balance `v` (provided some row with id `A` exists). -/
theorem find_updateBalance_self (l : List Account) (A : String) (v : Int)
    (account : Account) (h : l.find? (fun a => a.id = A) = some account) :
    ((updateBalance l A v).find? (fun a => a.id = A)).map (fun a => a.balance) =
      some v := by
  induction l with
  | nil => simp at h
  | cons a l ih =>
    simp only [updateBalance, List.map_cons]
    by_cases hA : a.id = A
    · rw [if_pos hA, List.find?_cons_of_pos _ (by simpa using hA)]
      rfl
    · rw [if_neg hA, List.find?_cons_of_neg _ (by simpa using hA)]
      rw [List.find?_cons_of_neg _ (by simpa using hA)] at h
      exact ih h

/-- One POST request changes the balance of account `A` by exactly its
singleton-trace deposit-minus-debit contribution. -/
theorem balanceOf_createTransaction (db : DB) (r : PostReq) (iOk uOk : Bool)
    (A : String) (b : Int) (hb : balanceOf db A = some b) :
    balanceOf (createTransaction db r iOk uOk).2 A =
      some (b + depositSum A [(r, (createTransaction db r iOk uOk).1)]
              - debitSum A [(r, (createTransaction db r iOk uOk).1)]) := by
  unfold createTransaction
  cases hacct : findAccount db r.accountId with
  | none =>
    simp [depositSum, debitSum, PostResp.isCreated, hb]
  | some account =>
    by_cases hneg : (if r.type = "DEPOSIT" then account.balance + r.amount
        else account.balance - r.amount) < 0
    · simp only [hneg, if_true]
      simp [depositSum, debitSum, PostResp.isCreated, hb]
    · by_cases hins : (iOk && allowedTypes.contains r.type) = true
      · simp only [hneg, if_false, hins, if_true]
        have hmem : allowedTypes.contains r.type = true := by
          have h' := hins
          simp only [Bool.and_eq_true] at h'
          exact h'.2
        cases uOk with
        | false =>
          rw [if_neg Bool.false_ne_true]
          simpa [depositSum, debitSum, PostResp.isCreated, balanceOf,
            findAccount] using hb
        | true =>
          rw [if_pos rfl]
          by_cases hAeq : r.accountId = A
          · subst hAeq
            have hbal : account.balance = b := by
              unfold balanceOf at hb
              rw [hacct] at hb
              simpa using hb
            have hfind := find_updateBalance_self db.accounts r.accountId
              (if r.type = "DEPOSIT" then account.balance + r.amount
               else account.balance - r.amount) account
              (by simpa [findAccount] using hacct)
            unfold balanceOf findAccount
            rw [hfind]
            rcases (by simpa [allowedTypes] using hmem :
                r.type = "DEPOSIT" ∨ r.type = "WITHDRAWAL" ∨ r.type = "TRANSFER")
              with hty | hty | hty <;>
              simp [hty, hbal, depositSum, debitSum, PostResp.isCreated]
          · have hfind := find_updateBalance_ne db.accounts r.accountId A
              (if r.type = "DEPOSIT" then account.balance + r.amount
               else account.balance - r.amount) hAeq
            unfold balanceOf findAccount at hb ⊢
            rw [hfind]
            simp [depositSum, debitSum, PostResp.isCreated, hAeq, hb]
      · simp only [hneg, if_false, hins]
        simp [depositSum, debitSum, PostResp.isCreated, hb]

/-- C2: for every account `A` present in the store, after any finite
sequence of POST transaction requests (with arbitrary injected write
failures), `A`'s balance equals its initial balance plus the sum of the
amounts of the committed (201) DEPOSIT transactions minus the sum of the
amounts of the committed WITHDRAWAL and TRANSFER transactions. -/
theorem balance_conservation (steps : List (PostReq × Bool × Bool)) (db : DB)
    (A : String) (b : Int) (hb : balanceOf db A = some b) :
    balanceOf (runTxns db steps).1 A =
      some (b + depositSum A (runTxns db steps).2
              - debitSum A (runTxns db steps).2) := by
  induction steps generalizing db b with
  | nil => simpa [runTxns, depositSum, debitSum] using hb
  | cons x rest ih =>
    obtain ⟨r, iOk, uOk⟩ := x
    have h1 := balanceOf_createTransaction db r iOk uOk A b hb
    have h2 := ih (createTransaction db r iOk uOk).2 _ h1
    simp only [runTxns, depositSum, debitSum] at h2 ⊢
    rw [h2]
    simp only [depositSum, debitSum] at *
    congr 1
    ring

/-- C2 witness: on the seed store (account "1", balance 5000), a committed
deposit of 500 followed by a committed withdrawal of 200 leaves the balance
at 5000 plus the trace's deposit sum minus its debit sum. -/
theorem balance_conservation_witness :
    balanceOf (runTxns seedDb
        [(⟨"1", "DEPOSIT", 500, "a"⟩, true, true),
         (⟨"1", "WITHDRAWAL", 200, "b"⟩, true, true)]).1 "1" =
      some (5000 + depositSum "1" (runTxns seedDb
          [(⟨"1", "DEPOSIT", 500, "a"⟩, true, true),
           (⟨"1", "WITHDRAWAL", 200, "b"⟩, true, true)]).2
        - debitSum "1" (runTxns seedDb
          [(⟨"1", "DEPOSIT", 500, "a"⟩, true, true),
           (⟨"1", "WITHDRAWAL", 200, "b"⟩, true, true)]).2) :=
  balance_conservation
    [(⟨"1", "DEPOSIT", 500, "a"⟩, true, true),
     (⟨"1", "WITHDRAWAL", 200, "b"⟩, true, true)]
    seedDb "1" 5000 (by decide)

/-- C7 witness: the envelope properties hold for the concrete 200 response
that account "1" of the 15-transaction store gives to `?page=2&limit=10`
(that response has `limit = 2`, `totalTransactions = 15`, `totalPages = 8`,
`hasNextPage = true`, `hasPreviousPage = true`). -/
theorem pagination_envelope_witness :
    1 ≤ (2 : Int) ∧
    (8 : Nat) = 15 ⌈/⌉ (2 : Int).toNat ∧
    ((true : Bool) = true ↔ (2 : Int) < ((8 : Nat) : Int)) ∧
    ((true : Bool) = true ↔ (1 : Int) < 2) ∧
    (15 : Nat) = (db15.transactions.filter (fun t => t.accountId = "1")).length :=
  pagination_envelope db15 "1" (some 2) (some 10)
    [{ id := 13, type := "DEPOSIT", amount := 10, description := "d",
       accountId := "1", date := 13 },
     { id := 12, type := "DEPOSIT", amount := 10, description := "d",
       accountId := "1", date := 12 }]
    { currentPage := 2, limit := 2, totalTransactions := 15,
      totalPages := 8, hasNextPage := true, hasPreviousPage := true }
    (by decide)
